import Mathlib

/-!
Verification development for `main.py` of the proxy_bench repository: a
shallow embedding of its bounded stream server, helper functions and the
benchmark orchestration loop, together with theorems about the behaviour
the specification describes.

External effects (the sing-box binary, openssl, curl, the OS) are modelled
as environment data: per iteration the environment says whether each
process survives its settle window and what the transfer tool printed.
-/

namespace ProxyBench

/-! ### Constants from the top of main.py -/

def BASE_CLIENT_PORT : Nat := 15000

def BASE_SERVER_PORT : Nat := 20000

def HTTP_SERVER_PORT : Nat := 8000

def DURATION : Nat := 12

/-- Constant `MAX_TEST_BYTES = 8 << 30` (8 GiB). -/
def MAX_TEST_BYTES : Nat := 8 <<< 30

/-- The handler builds `chunk = b"\0" * (1024 * 1024) * 1`, a 1 MiB chunk. -/
def CHUNK_SIZE : Nat := 1024 * 1024

/-! ### Stream server (`InfiniteHandler.do_GET`)

The body-writing loop `while sent < MAX_TEST_BYTES: wfile.write(chunk);
sent += len(chunk)` is modelled by `sendChunks sent`, the list of chunk
sizes written starting from a cumulative count `sent`.  A broken
connection only truncates the list in reality; the model captures the
maximal (client-keeps-reading) run, which is the bound the spec is about. -/

def sendLoop : Nat → Nat → List Nat
  | 0, _ => []
  | fuel + 1, sent =>
      if sent < MAX_TEST_BYTES then CHUNK_SIZE :: sendLoop fuel (sent + CHUNK_SIZE) else []

/-- The loop runs from `sent`; `MAX_TEST_BYTES - sent` units of fuel are more
than enough since every iteration adds `CHUNK_SIZE ≥ 1` bytes. -/
def sendChunks (sent : Nat) : List Nat :=
  sendLoop (MAX_TEST_BYTES - sent) sent

def BENCH_PATH : String := "/bench"

def OCTET_STREAM : String := "application/octet-stream"

/-- Response produced by one `do_GET` call: status code, the content type
header explicitly sent by the handler, and the list of body chunks written. -/
structure HttpResponse where
  status : Nat
  contentType : Option String
  chunks : List Nat
deriving DecidableEq, Repr

/-- Model of `InfiniteHandler.do_GET`: `self.path != "/bench"` yields
`send_error(404)`; otherwise 200, the octet-stream header, then the chunk
loop. -/
def do_GET (path : String) : HttpResponse :=
  if path ≠ BENCH_PATH then
    { status := 404, contentType := none, chunks := [] }
  else
    { status := 200, contentType := some OCTET_STREAM, chunks := sendChunks 0 }

/-! ### Password helpers (`gen_password`, `get_pwd_for_method`)

The call `gen_password(bits)` shells out to `openssl rand -base64 byte_len`
with `byte_len = bits // 8`; the secret string itself is external, but the
byte length handed to the tool is the code under verification. -/

def gen_password_byte_len (bits : Nat) : Nat := bits / 8

/-- Python substring test `needle in hay`. -/
def strContains (hay needle : String) : Bool :=
  hay.data.tails.any (fun t => needle.data.isPrefixOf t)

def KEY128 : String := "128"

/-- Model of `get_pwd_for_method`: methods whose name contains "128" get a
128-bit password, all others a 256-bit one. -/
def get_pwd_bits_for_method (method : String) : Nat :=
  if strContains method KEY128 then 128 else 256

/-- Byte length of the secret requested from openssl for a method. -/
def secret_byte_len (method : String) : Nat :=
  gen_password_byte_len (get_pwd_bits_for_method method)

/-! ### Process stop (`terminate_process`)

The Python function is
`if not p: return` /
`try: p.terminate(); p.wait(timeout=4) except Exception: pass` /
`finally: try: p.kill() except Exception: pass`.
A process handle is modelled by which of its lifecycle calls raise; the
function's observable behaviour is the list of calls it issues plus whether
an exception escapes to the caller. -/

structure ProcBehavior where
  /-- Whether `p.terminate()` raises (e.g. OS error). -/
  terminateRaises : Bool
  /-- Whether `p.wait(timeout=4)` raises — in particular `TimeoutExpired`
  when the process is still alive after the 4 second bounded wait. -/
  waitRaises : Bool
  /-- Whether `p.kill()` raises. -/
  killRaises : Bool
deriving DecidableEq, Repr

inductive TermAction where
  | terminate : TermAction
  | wait : TermAction
  | kill : TermAction
deriving DecidableEq, Repr

/-- The `try` body: `p.terminate()` then, if that did not raise,
`p.wait(timeout=4)`.  Returns the calls issued and whether it raised. -/
def termTryBody (b : ProcBehavior) : List TermAction × Bool :=
  if b.terminateRaises then ([TermAction.terminate], true)
  else ([TermAction.terminate, TermAction.wait], b.waitRaises)

/-- The `finally` body: `p.kill()`. -/
def termKillCall (b : ProcBehavior) : List TermAction × Bool :=
  ([TermAction.kill], b.killRaises)

/-- Model of `except Exception: pass` — the calls happen, the exception does
not propagate. -/
def swallow (m : List TermAction × Bool) : List TermAction × Bool :=
  (m.1, false)

/-- Model of `terminate_process(p)`.  `none` models a falsy `p`
(`if not p: return`); otherwise the guarded try body runs and the `finally`
block issues `kill` unconditionally, each wrapped in its own catch-all.
Result: calls issued and whether an exception reaches the caller. -/
def terminate_process (p : Option ProcBehavior) : List TermAction × Bool :=
  match p with
  | none => ([], false)
  | some b =>
      let t := swallow (termTryBody b)
      let k := swallow (termKillCall b)
      (t.1 ++ k.1, t.2 || k.2)

/-! ### Transfer measurement (`run_curl`)

curl is external: the environment says whether `subprocess.check_output`
raised (non-zero exit, `--max-time` timeout) or returned an output string.
Python `float(out)` is modelled by `pyFloat?`, a parser for the decimal
literals Python's `float` accepts (sign, digits, optional fraction,
optional exponent); a parse failure is the `ValueError` caught by the
`except`. -/

def digitsVal (l : List Char) : Nat :=
  l.foldl (fun a c => a * 10 + (c.toNat - 48)) 0

def parseSign : List Char → Int × List Char
  | '+' :: r => (1, r)
  | '-' :: r => (-1, r)
  | r => (1, r)

/-- A parsed decimal literal: sign, integer part, fractional digits value
and count, exponent. -/
structure FloatLit where
  sign : Int
  intPart : Nat
  fracPart : Nat
  fracLen : Nat
  exp : Int
deriving DecidableEq, Repr

def parseMantissa (cs : List Char) : Option ((Nat × Nat × Nat) × List Char) :=
  let ip := cs.takeWhile Char.isDigit
  let r1 := cs.dropWhile Char.isDigit
  match r1 with
  | '.' :: r2 =>
      let fp := r2.takeWhile Char.isDigit
      let r3 := r2.dropWhile Char.isDigit
      if ip.isEmpty && fp.isEmpty then none
      else some ((digitsVal ip, digitsVal fp, fp.length), r3)
  | _ =>
      if ip.isEmpty then none
      else some ((digitsVal ip, 0, 0), r1)

def parseExponent (cs : List Char) : Option (Int × List Char) :=
  match cs with
  | 'e' :: r | 'E' :: r =>
      let (sg, r1) := parseSign r
      let ds := r1.takeWhile Char.isDigit
      let r2 := r1.dropWhile Char.isDigit
      if ds.isEmpty then none else some (sg * (digitsVal ds : Int), r2)
  | r => some (0, r)

def isPySpace (c : Char) : Bool :=
  c = ' ' || c = '\t' || c = '\n' || c = '\r'

/-- Python `str.strip()` on the characters of a string. -/
def pyStrip (cs : List Char) : List Char :=
  ((cs.dropWhile isPySpace).reverse.dropWhile isPySpace).reverse

/-- Syntactic parse of a full decimal literal (the whole input must be
consumed). -/
def parseFloatLit? (cs : List Char) : Option FloatLit :=
  let (sg, r0) := parseSign cs
  match parseMantissa r0 with
  | none => none
  | some ((ip, fp, fl), r1) =>
      match parseExponent r1 with
      | none => none
      | some (e, r2) =>
          if r2.isEmpty then
            some { sign := sg, intPart := ip, fracPart := fp, fracLen := fl, exp := e }
          else none

/-- Rational value denoted by a parsed decimal literal. -/
def floatVal (f : FloatLit) : ℚ :=
  (f.sign : ℚ) * ((f.intPart : ℚ) + (f.fracPart : ℚ) / 10 ^ f.fracLen)
    * (10 : ℚ) ^ f.exp

/-- Python `float(out.strip())`, returning `none` where it raises
`ValueError`. -/
def pyFloat? (s : String) : Option ℚ :=
  (parseFloatLit? (pyStrip s.data)).map floatVal

/-- Outcome of the external curl invocation. -/
inductive CurlOut where
  | err : CurlOut
  | ok : String → CurlOut
deriving DecidableEq, Repr

/-- Model of `run_curl`: on a captured output, parse the reported
bytes-per-second rate and convert it to MiB/s; any failure (process error,
timeout, non-numeric output) is caught and reported as `None`. -/
def run_curl : CurlOut → Option ℚ
  | CurlOut.err => none
  | CurlOut.ok out =>
      match pyFloat? out with
      | none => none
      | some speed_bps => some (speed_bps / (1024 * 1024))

/-- Does this curl outcome end in the `except` branch of `run_curl`
(invocation failure/timeout, or output `float()` refuses)? -/
def curl_failed : CurlOut → Bool
  | CurlOut.err => true
  | CurlOut.ok s => (pyFloat? s).isNone

/-! ### Process start (`start_singbox`)

The function launches the binary, sleeps the 0.8 s settle window, and
polls: if the process has already exited it prints the error output and
returns `None`, otherwise it returns the process handle.  Whether the
process survives the settle window is decided by the external world. -/

def start_singbox (survivesSettle : Bool) : Option Unit :=
  if survivesSettle then some () else none

/-! ### Benchmark loop (`main`) -/

/-- Environment for one iteration of the loop in `main`: does the server
process survive its settle window, does the client, and what does curl do. -/
structure IterEnv where
  serverStarts : Bool
  clientStarts : Bool
  curl : CurlOut
deriving DecidableEq, Repr

/-- External calls observable in one iteration, in program order. -/
inductive Event where
  | startServer : Event
  | startClient : Event
  | measure : Event
  | termClient : Event
  | termServer : Event
deriving DecidableEq, Repr

/-- What one iteration of the loop in `main` produced: the method, the port
pair it used, the appended result (`none` = FAILED), and the external calls
it made. -/
structure IterRecord where
  method : String
  serverPort : Nat
  clientPort : Nat
  speed : Option ℚ
  events : List Event
deriving DecidableEq, Repr

/-- One iteration of the `for (method,) in tests` body, starting with port
counters `sp`, `cp`; returns the record plus the updated counters.
Mirrors main.py: server start failure appends `(method, None)` and does
`sp += 1; cp += 1; continue`; client start failure additionally terminates
the server first, then the same `+= 1` updates; otherwise curl runs, the
result is appended, both processes are terminated and `sp += 2; cp += 2`. -/
def runIteration (method : String) (env : IterEnv) (sp cp : Nat) :
    IterRecord × Nat × Nat :=
  match start_singbox env.serverStarts with
  | none =>
      ({ method := method, serverPort := sp, clientPort := cp, speed := none,
         events := [Event.startServer] }, sp + 1, cp + 1)
  | some _ =>
      match start_singbox env.clientStarts with
      | none =>
          ({ method := method, serverPort := sp, clientPort := cp, speed := none,
             events := [Event.startServer, Event.startClient, Event.termServer] },
           sp + 1, cp + 1)
      | some _ =>
          ({ method := method, serverPort := sp, clientPort := cp,
             speed := run_curl env.curl,
             events := [Event.startServer, Event.startClient, Event.measure,
                        Event.termClient, Event.termServer] },
           sp + 2, cp + 2)

/-- The whole loop over a list of (method, environment) pairs, threading the
two port counters. -/
def runLoop : List (String × IterEnv) → Nat → Nat → List IterRecord × Nat × Nat
  | [], sp, cp => ([], sp, cp)
  | (m, env) :: rest, sp, cp =>
      let step := runIteration m env sp cp
      let tail := runLoop rest step.2.1 step.2.2
      (step.1 :: tail.1, tail.2)

/-- The fixed ordered test list from `main`. -/
def tests : List String :=
  ["none", "aes-128-gcm", "aes-256-gcm", "chacha20-ietf-poly1305",
   "2022-blake3-aes-128-gcm", "2022-blake3-aes-256-gcm"]

/-- A full run: the loop over `tests` from the base port counters, given
one environment per iteration. -/
def runBench (envs : List IterEnv) : List IterRecord :=
  (runLoop (tests.zip envs) BASE_SERVER_PORT BASE_CLIENT_PORT).1

/-- The `results` list accumulated by `main`: `(method, speed-or-None)`. -/
def results (envs : List IterEnv) : List (String × Option ℚ) :=
  (runBench envs).map (fun r => (r.method, r.speed))

/-! ### Concrete inputs used as witnesses -/

def METHOD_NONE : String := "none"

def METHOD_AES256 : String := "aes-256-gcm"

def SPEED_ASCII : String := "12500000"

def NON_NUMERIC : String := "not-a-number"

def envSpeedOK : IterEnv :=
  { serverStarts := true, clientStarts := true, curl := CurlOut.ok SPEED_ASCII }

def envServerFail : IterEnv :=
  { serverStarts := false, clientStarts := false, curl := CurlOut.err }

def envClientFail : IterEnv :=
  { serverStarts := true, clientStarts := false, curl := CurlOut.err }

def envCurlBad : IterEnv :=
  { serverStarts := true, clientStarts := true, curl := CurlOut.ok NON_NUMERIC }

def demoEnvs : List IterEnv :=
  [envSpeedOK, envServerFail, envClientFail, envCurlBad, envSpeedOK, envServerFail]

/-- A process whose `terminate()` succeeds and which exits within the
bounded wait (so `wait(timeout=4)` returns normally): graceful shutdown. -/
def gracefulProc : ProcBehavior :=
  { terminateRaises := false, waitRaises := false, killRaises := false }

/-! ### Helper lemmas -/

theorem sendLoop_spec (fuel : Nat) :
    ∀ sent, MAX_TEST_BYTES ≤ sent + fuel * CHUNK_SIZE → sent % CHUNK_SIZE = 0 →
      (sendLoop fuel sent).all (fun c => c == CHUNK_SIZE) = true ∧
      (sent ≤ MAX_TEST_BYTES → sent + (sendLoop fuel sent).sum = MAX_TEST_BYTES) := by
  have hC : CHUNK_SIZE = 1048576 := by decide
  have hM : MAX_TEST_BYTES = 8589934592 := by decide
  induction fuel with
  | zero =>
    intro sent hk _
    have h0 : 0 * CHUNK_SIZE = 0 := Nat.zero_mul _
    refine ⟨rfl, fun hle => ?_⟩
    simp only [sendLoop, List.sum_nil]
    omega
  | succ fuel ih =>
    intro sent hk hmod
    have hsm : (fuel + 1) * CHUNK_SIZE = fuel * CHUNK_SIZE + CHUNK_SIZE := by ring
    by_cases hlt : sent < MAX_TEST_BYTES
    · have hstep : sent + CHUNK_SIZE ≤ MAX_TEST_BYTES := by
        rw [hC] at hmod ⊢
        rw [hM] at hlt ⊢
        omega
      have ih2 := ih (sent + CHUNK_SIZE) (by omega)
        (by rw [hC] at hmod ⊢; omega)
      simp only [sendLoop, if_pos hlt, List.all_cons, Bool.and_eq_true, beq_iff_eq,
        List.sum_cons]
      refine ⟨⟨trivial, ih2.1⟩, fun hle => ?_⟩
      have := ih2.2 hstep
      omega
    · simp only [sendLoop, if_neg hlt, List.sum_nil]
      refine ⟨rfl, fun hle => ?_⟩
      omega

theorem sendChunks_zero_spec :
    (sendChunks 0).all (fun c => c == CHUNK_SIZE) = true ∧
    (sendChunks 0).sum = MAX_TEST_BYTES := by
  have hC : CHUNK_SIZE = 1048576 := by decide
  have hfuel : MAX_TEST_BYTES ≤ 0 + (MAX_TEST_BYTES - 0) * CHUNK_SIZE := by
    rw [Nat.sub_zero, Nat.zero_add]
    calc MAX_TEST_BYTES = MAX_TEST_BYTES * 1 := (Nat.mul_one _).symm
      _ ≤ MAX_TEST_BYTES * CHUNK_SIZE :=
        Nat.mul_le_mul (Nat.le_refl _) (by rw [hC]; omega)
  have h := sendLoop_spec (MAX_TEST_BYTES - 0) 0 hfuel (Nat.zero_mod _)
  rw [sendChunks]
  refine ⟨h.1, ?_⟩
  have := h.2 (Nat.zero_le _)
  omega

theorem runIteration_fields (m : String) (env : IterEnv) (sp cp : Nat) :
    (runIteration m env sp cp).1.method = m ∧
    (runIteration m env sp cp).1.serverPort = sp ∧
    (runIteration m env sp cp).1.clientPort = cp := by
  obtain ⟨s, c, u⟩ := env
  cases s <;> cases c <;> simp [runIteration, start_singbox]

theorem runIteration_stride (m : String) (env : IterEnv) (sp cp : Nat) :
    (runIteration m env sp cp).2.1
        = sp + (if env.serverStarts && env.clientStarts then 2 else 1) ∧
    (runIteration m env sp cp).2.2
        = cp + (if env.serverStarts && env.clientStarts then 2 else 1) := by
  obtain ⟨s, c, u⟩ := env
  cases s <;> cases c <;> simp [runIteration, start_singbox]

theorem runIteration_stride_bounds (m : String) (env : IterEnv) (sp cp : Nat) :
    sp + 1 ≤ (runIteration m env sp cp).2.1 ∧ (runIteration m env sp cp).2.1 ≤ sp + 2 ∧
    cp + 1 ≤ (runIteration m env sp cp).2.2 ∧ (runIteration m env sp cp).2.2 ≤ cp + 2 := by
  obtain ⟨s, c, u⟩ := env
  cases s <;> cases c <;> simp [runIteration, start_singbox]

theorem runLoop_methods (l : List (String × IterEnv)) : ∀ sp cp : Nat,
    ((runLoop l sp cp).1).map (fun r => r.method) = l.map Prod.fst := by
  induction l with
  | nil => intro sp cp; rfl
  | cons p rest ih =>
      intro sp cp
      obtain ⟨m, env⟩ := p
      simp only [runLoop, List.map_cons]
      exact congrArg₂ (· :: ·) (runIteration_fields m env sp cp).1 (ih _ _)

theorem runLoop_bounds (l : List (String × IterEnv)) : ∀ sp cp : Nat,
    ∀ r ∈ (runLoop l sp cp).1,
      sp ≤ r.serverPort ∧ r.serverPort < sp + 2 * l.length ∧
      cp ≤ r.clientPort ∧ r.clientPort < cp + 2 * l.length := by
  induction l with
  | nil => intro sp cp r hr; simp [runLoop] at hr
  | cons p rest ih =>
      intro sp cp r hr
      obtain ⟨m, env⟩ := p
      have hf := runIteration_fields m env sp cp
      have hb := runIteration_stride_bounds m env sp cp
      simp only [runLoop, List.mem_cons, List.length_cons] at hr ⊢
      rcases hr with rfl | hr
      · omega
      · have := ih _ _ r hr
        omega

theorem runLoop_pairwise (l : List (String × IterEnv)) : ∀ sp cp : Nat,
    ((runLoop l sp cp).1).Pairwise
      (fun a b => a.serverPort < b.serverPort ∧ a.clientPort < b.clientPort) := by
  induction l with
  | nil => intro sp cp; exact List.Pairwise.nil
  | cons p rest ih =>
      intro sp cp
      obtain ⟨m, env⟩ := p
      have hf := runIteration_fields m env sp cp
      have hb := runIteration_stride_bounds m env sp cp
      simp only [runLoop]
      refine List.Pairwise.cons ?_ (ih _ _)
      intro b hbmem
      have hbb := runLoop_bounds rest _ _ b hbmem
      constructor <;> omega

/-! ### Claims -/

/-- Claim C1 counterexample: on an iteration whose server process fails to
start, the port counters advance by 1, not by the fixed stride of 2 — the
claim as stated is false. -/
theorem port_stride_two_fails_on_failure :
    ¬ ((runIteration METHOD_AES256 envServerFail BASE_SERVER_PORT BASE_CLIENT_PORT).2.1
          = BASE_SERVER_PORT + 2 ∧
       (runIteration METHOD_AES256 envServerFail BASE_SERVER_PORT BASE_CLIENT_PORT).2.2
          = BASE_CLIENT_PORT + 2) := by
  decide

/-- Claim C1 (amended): both port counters are incremented before the next
iteration in every case, but the stride is 2 only on iterations where both
processes started (measurement failure included); on a server or client
start failure both counters advance by 1. -/
theorem port_stride_by_outcome (m : String) (env : IterEnv) (sp cp : Nat) :
    (runIteration m env sp cp).2.1
        = sp + (if env.serverStarts && env.clientStarts then 2 else 1) ∧
    (runIteration m env sp cp).2.2
        = cp + (if env.serverStarts && env.clientStarts then 2 else 1) := by
  obtain ⟨s, c, u⟩ := env
  cases s <;> cases c <;> simp [runIteration, start_singbox]

/-- Claim C2: a GET on the bench path is answered 200 with the generic
octet-stream content type and a body written in 1 MiB chunks whose total
never exceeds MAX_TEST_BYTES, however long the client keeps reading; any
other path is answered 404. -/
theorem do_GET_contract (path : String) :
    (do_GET path).status = (if path = BENCH_PATH then 200 else 404) ∧
    (do_GET path).contentType
        = (if path = BENCH_PATH then some OCTET_STREAM else none) ∧
    (do_GET path).chunks.all (fun c => c == CHUNK_SIZE) = true ∧
    (do_GET path).chunks.sum ≤ MAX_TEST_BYTES := by
  by_cases h : path = BENCH_PATH
  · subst h
    exact ⟨rfl, rfl, sendChunks_zero_spec.1, le_of_eq sendChunks_zero_spec.2⟩
  · have hd : do_GET path = { status := 404, contentType := none, chunks := [] } := by
      simp [do_GET, h]
    rw [hd]
    simp [h]

/-- Claim C3: with one environment per method, the run produces exactly one
result per method of the fixed test list, in the original order, regardless
of which iterations fail — no failure aborts the loop. -/
theorem results_one_per_method_in_order (envs : List IterEnv)
    (h : envs.length = tests.length) :
    (results envs).map Prod.fst = tests := by
  unfold results runBench
  rw [List.map_map]
  have h1 : (Prod.fst ∘ fun r : IterRecord => (r.method, r.speed))
      = fun r : IterRecord => r.method := rfl
  rw [h1, runLoop_methods (tests.zip envs) BASE_SERVER_PORT BASE_CLIENT_PORT]
  exact List.map_fst_zip tests envs (le_of_eq h.symm)

/-- Claim C3 witness: a six-environment run containing every failure mode
still yields one result per method, in test order. -/
theorem results_one_per_method_in_order_witness :
    demoEnvs.length = tests.length ∧ (results demoEnvs).map Prod.fst = tests :=
  ⟨rfl, results_one_per_method_in_order demoEnvs rfl⟩

/-- Claim C4: when the server process exits before the settle window, the
start operation returns no handle, the iteration records no speed, the
client process is never started, and the loop continues with the remaining
methods at the +1 port counters. -/
theorem server_start_failure_contract (m : String) (env : IterEnv) (sp cp : Nat)
    (rest : List (String × IterEnv)) (h : env.serverStarts = false) :
    start_singbox env.serverStarts = none ∧
    (runIteration m env sp cp).1.speed = none ∧
    Event.startClient ∉ (runIteration m env sp cp).1.events ∧
    (runLoop ((m, env) :: rest) sp cp).1
        = (runIteration m env sp cp).1 :: (runLoop rest (sp + 1) (cp + 1)).1 := by
  obtain ⟨s, c, u⟩ := env
  cases s with
  | true => simp at h
  | false =>
      refine ⟨rfl, rfl, ?_, ?_⟩
      · simp [runIteration, start_singbox]
      · simp [runLoop, runIteration, start_singbox]

/-- Claim C4 witness: concrete server-start failure for aes-256-gcm. -/
theorem server_start_failure_contract_witness :
    envServerFail.serverStarts = false ∧
    (start_singbox envServerFail.serverStarts = none ∧
     (runIteration METHOD_AES256 envServerFail BASE_SERVER_PORT
         BASE_CLIENT_PORT).1.speed = none ∧
     Event.startClient ∉ (runIteration METHOD_AES256 envServerFail BASE_SERVER_PORT
         BASE_CLIENT_PORT).1.events ∧
     (runLoop [(METHOD_AES256, envServerFail)] BASE_SERVER_PORT BASE_CLIENT_PORT).1
        = (runIteration METHOD_AES256 envServerFail BASE_SERVER_PORT
             BASE_CLIENT_PORT).1
            :: (runLoop [] (BASE_SERVER_PORT + 1) (BASE_CLIENT_PORT + 1)).1) :=
  ⟨rfl, server_start_failure_contract METHOD_AES256 envServerFail BASE_SERVER_PORT
      BASE_CLIENT_PORT [] rfl⟩

/-- Claim C5: when curl fails, times out or prints non-numeric output, the
measurement returns None instead of raising, the iteration records no
speed, both processes are still torn down, and the loop continues with the
next method. -/
theorem curl_failure_contract (m : String) (co : CurlOut) (sp cp : Nat)
    (rest : List (String × IterEnv)) (h : curl_failed co = true) :
    run_curl co = none ∧
    (runIteration m { serverStarts := true, clientStarts := true, curl := co }
        sp cp).1.speed = none ∧
    Event.termClient ∈ (runIteration m
        { serverStarts := true, clientStarts := true, curl := co } sp cp).1.events ∧
    Event.termServer ∈ (runIteration m
        { serverStarts := true, clientStarts := true, curl := co } sp cp).1.events ∧
    (runLoop ((m, { serverStarts := true, clientStarts := true, curl := co })
        :: rest) sp cp).1
      = (runIteration m { serverStarts := true, clientStarts := true, curl := co }
            sp cp).1
          :: (runLoop rest (sp + 2) (cp + 2)).1 := by
  have hrc : run_curl co = none := by
    cases co with
    | err => rfl
    | ok s =>
        simp only [curl_failed, Option.isNone_iff_eq_none] at h
        simp [run_curl, h]
  refine ⟨hrc, ?_, ?_, ?_, ?_⟩
  · simp [runIteration, start_singbox, hrc]
  · simp [runIteration, start_singbox]
  · simp [runIteration, start_singbox]
  · simp [runLoop, runIteration, start_singbox]

/-- Claim C5 witness: concrete non-numeric curl output. -/
theorem curl_failure_contract_witness :
    curl_failed (CurlOut.ok NON_NUMERIC) = true ∧
    run_curl (CurlOut.ok NON_NUMERIC) = none ∧
    (runIteration METHOD_NONE
        { serverStarts := true, clientStarts := true, curl := CurlOut.ok NON_NUMERIC }
        BASE_SERVER_PORT BASE_CLIENT_PORT).1.speed = none :=
  ⟨by decide,
   (curl_failure_contract METHOD_NONE (CurlOut.ok NON_NUMERIC) BASE_SERVER_PORT
       BASE_CLIENT_PORT [] (by decide)).1,
   (curl_failure_contract METHOD_NONE (CurlOut.ok NON_NUMERIC) BASE_SERVER_PORT
       BASE_CLIENT_PORT [] (by decide)).2.1⟩

/-- Claim C6 counterexample: a process that terminated gracefully within the
bounded wait still has the force-kill call issued on it — terminate_process
issues kill unconditionally from its finally block, so the claim as stated
is false. -/
theorem graceful_termination_still_killed :
    TermAction.kill ∈ (terminate_process (some gracefulProc)).1 := by
  decide

/-- Claim C6 (amended): the stop operation issues terminate, then — when
terminate did not raise — the bounded wait, and then always issues the
force-kill call as its final action, whether or not the process had already
terminated gracefully within the wait. -/
theorem terminate_process_actions (b : ProcBehavior) :
    (terminate_process (some b)).1
      = (if b.terminateRaises then [TermAction.terminate]
         else [TermAction.terminate, TermAction.wait]) ++ [TermAction.kill] := by
  by_cases h : b.terminateRaises <;>
    simp [terminate_process, swallow, termTryBody, termKillCall, h]

/-- Claim C7: across one run the assigned port pairs are componentwise
strictly increasing, and no port number — server or client — is ever reused
or collides with any other, however the iterations fail. -/
theorem port_pairs_increasing_nodup (envs : List IterEnv) :
    ((runBench envs).Pairwise
        fun a b => a.serverPort < b.serverPort ∧ a.clientPort < b.clientPort) ∧
    ((runBench envs).map (fun r => r.serverPort)
        ++ (runBench envs).map (fun r => r.clientPort)).Nodup := by
  have hpw := runLoop_pairwise (tests.zip envs) BASE_SERVER_PORT BASE_CLIENT_PORT
  have hlen : (tests.zip envs).length ≤ 6 := by
    rw [List.length_zip]
    have h6 : tests.length = 6 := rfl
    omega
  have hbounds := runLoop_bounds (tests.zip envs) BASE_SERVER_PORT BASE_CLIENT_PORT
  have hB1 : BASE_SERVER_PORT = 20000 := rfl
  have hB2 : BASE_CLIENT_PORT = 15000 := rfl
  refine ⟨hpw, ?_⟩
  rw [List.nodup_append]
  refine ⟨?_, ?_, ?_⟩
  · exact (hpw.map _ (fun a b hab => Nat.ne_of_lt hab.1))
  · exact (hpw.map _ (fun a b hab => Nat.ne_of_lt hab.2))
  · intro a ha hb
    obtain ⟨r1, hr1, rfl⟩ := List.mem_map.mp ha
    obtain ⟨r2, hr2, hr2e⟩ := List.mem_map.mp hb
    have b1 := hbounds r1 hr1
    have b2 := hbounds r2 hr2
    omega

/-- Claim C8: the secret for a method is requested from 128 bits (16 bytes)
exactly when the method name contains the substring "128", and from 256
bits (32 bytes) otherwise. -/
theorem secret_size_by_method (m : String) :
    get_pwd_bits_for_method m = (if strContains m KEY128 then 128 else 256) ∧
    secret_byte_len m = (if strContains m KEY128 then 16 else 32) := by
  by_cases h : strContains m KEY128 <;>
    simp [get_pwd_bits_for_method, secret_byte_len, gen_password_byte_len, h]

/-- Claim C9: curl output "12500000" is recorded as 12500000/(1024*1024)
MiB/s, which is within 0.01 of 11.92, and the Gbps value derived with the
factor 8/1000 is within 0.0005 of 0.095. -/
theorem speed_conversion_12500000 :
    run_curl (CurlOut.ok SPEED_ASCII) = some ((12500000 : ℚ) / (1024 * 1024)) ∧
    (runIteration METHOD_NONE envSpeedOK BASE_SERVER_PORT BASE_CLIENT_PORT).1.speed
        = some ((12500000 : ℚ) / (1024 * 1024)) ∧
    |(12500000 : ℚ) / (1024 * 1024) - 1192 / 100| < 1 / 100 ∧
    |((12500000 : ℚ) / (1024 * 1024)) * 8 / 1000 - 95 / 1000| < 1 / 2000 := by
  have hp : parseFloatLit? (pyStrip SPEED_ASCII.data)
      = some { sign := 1, intPart := 12500000, fracPart := 0, fracLen := 0, exp := 0 } := by
    decide
  have h1 : run_curl (CurlOut.ok SPEED_ASCII)
      = some ((12500000 : ℚ) / (1024 * 1024)) := by
    simp only [run_curl, pyFloat?, hp, Option.map_some]
    norm_num [floatVal]
  exact ⟨h1, h1, by rw [abs_sub_lt_iff]; constructor <;> norm_num,
    by rw [abs_sub_lt_iff]; constructor <;> norm_num⟩

/-- Claim C10: the stop operation never propagates an exception to its
caller for any process behaviour, and an absent handle returns immediately
with no calls issued. -/
theorem terminate_process_no_raise (p : Option ProcBehavior) :
    (terminate_process p).2 = false ∧ terminate_process none = ([], false) := by
  refine ⟨?_, rfl⟩
  cases p with
  | none => rfl
  | some b => rfl

end ProxyBench
